import Mathlib

set_option linter.unusedVariables false

/-!
Shallow embedding of the Logger library (src/Logger.h, src/Logger.cpp).

The Logger class holds a numeric log level (uint8_t, default 2 = info), an
enabled byte (uint8_t, default 1), a nullable stream pointer and a callback
value whose validity can be tested.  `Logger::log` guards on the enabled flag,
the level/threshold comparison and the presence of a destination, builds a
label prefix with a switch on the level, formats the message into the rest of
a fixed 255-byte buffer with vsnprintf, prints the buffer to the stream, and
finally invokes the callback with the raw level, the level name, the format
string and the formatted body.

Streams and callbacks are modelled by their identity (a natural number for
the pointer or callback value); a null stream pointer and an invalid callback
are both modelled by `none`.  The variadic argument list and the C formatting
primitive are modelled by `FmtArg` and `runFormat`/`vsnprintf` below.
-/

/-- Size of the log message buffer (macro LOG_BUFFER_SIZE, default 255). -/
def LOG_BUFFER_SIZE : Nat := 255

/-- Static string used for the error level (variable logError in Logger.h). -/
def logError : String := "ERROR"

/-- Static string used for the info level (variable logInfo in Logger.h). -/
def logInfo : String := "INFO"

/-- Static string used for the debug level (variable logDebug in Logger.h). -/
def logDebug : String := "DEBUG"

/-- Numeric value of Loglevel::err. -/
def Loglevel.err : Nat := 1

/-- Numeric value of Loglevel::info. -/
def Loglevel.info : Nat := 2

/-- Numeric value of Loglevel::debug. -/
def Loglevel.debug : Nat := 3

/-- One variadic argument handed to the formatting primitive. -/
inductive FmtArg
  | int (i : Int)
  | str (s : String)
deriving DecidableEq, Repr

/-- Model of C printf-style formatting on character lists.  It supports the
conversions exercised by the repository (integer, string, and the escaped
percent sign); every other character is copied verbatim.  This models the
unbounded formatted result, before any buffer limit applies. -/
def runFormat : List Char → List FmtArg → List Char
  | '%' :: '%' :: rest, args => '%' :: runFormat rest args
  | '%' :: 'd' :: rest, FmtArg.int i :: args => (toString i).data ++ runFormat rest args
  | '%' :: 's' :: rest, FmtArg.str t :: args => t.data ++ runFormat rest args
  | c :: rest, args => c :: runFormat rest args
  | [], _ => []

/-- Model of the bounded C formatting primitive vsnprintf with buffer size n:
it writes at most n - 1 characters of the full formatted result plus a
terminator, truncating silently when the result would not fit. -/
def vsnprintf (n : Nat) (s : String) (args : List FmtArg) : String :=
  ((runFormat s.data args).take (n - 1)).asString

/-- One delivery performed by a call to Logger::log, in program order: either
a println of the composed buffer on the stream identified by the stored
pointer, or an invocation of the stored callback with its four arguments. -/
inductive LogEvent
  | streamWrite (sid : Nat) (line : String)
  | callbackCall (cid : Nat) (level : Nat) (levelName : String) (fmt : String) (msg : String)
deriving DecidableEq, Repr

/-- The state of the Logger class.  The two bytes keep their C default member
initializers; the stream pointer and the callback are absent by default. -/
structure Logger where
  _logLevel : Nat := 2
  _enabled : Nat := 1
  _strm : Option Nat := none
  _logEvent : Option Nat := none
deriving DecidableEq, Repr

/-- The default constructor: members keep their initializers (info level,
enabled, no stream, no callback). -/
def Logger.init : Logger := {}

/-- Overload begin(Stream &strm): stores the address of the stream. -/
def Logger.beginStream (l : Logger) (strm : Nat) : Logger :=
  { l with _strm := some strm }

/-- Overload begin(loggerCallback ev): stores the callback value. -/
def Logger.beginCallback (l : Logger) (ev : Option Nat) : Logger :=
  { l with _logEvent := ev }

/-- Overload begin(Stream &strm, loggerCallback ev): stores both. -/
def Logger.beginBoth (l : Logger) (strm : Nat) (ev : Option Nat) : Logger :=
  { l with _strm := some strm, _logEvent := ev }

/-- setLogLevel stores the numeric value of the level byte. -/
def Logger.setLogLevel (l : Logger) (level : Nat) : Logger :=
  { l with _logLevel := level }

/-- getLogLevel returns the stored level byte. -/
def Logger.getLogLevel (l : Logger) : Nat :=
  l._logLevel

/-- setEnabled stores its uint8_t argument verbatim. -/
def Logger.setEnabled (l : Logger) (en : Nat) : Logger :=
  { l with _enabled := en }

/-- getEnabled returns the stored byte unchanged. -/
def Logger.getEnabled (l : Logger) : Nat :=
  l._enabled

/-- The guard at the top of Logger::log: the call returns immediately when
the enabled byte is zero, when the numeric level exceeds the threshold, or
when the stream is null and the callback invalid. -/
def Logger.guardBlocks (l : Logger) (level : Nat) : Bool :=
  l._enabled = 0 || l._logLevel < level || (l._strm.isNone && l._logEvent.isNone)

/-- The switch statement of Logger::log.  For a recognized level it yields the
level-name string levelN, the text placed in the buffer before the message
(the label, a colon and a space), and the print text index pti.  For any
other byte value no case of the switch executes, modelled by none: pti then
keeps its initializer 0 while levelN alone stays uninitialized. -/
def labelSwitch (level : Nat) : Option (String × String × Nat) :=
  if level = 1 then some (logError, "ERROR: ", 7)
  else if level = 2 then some (logInfo, "INFO: ", 6)
  else if level = 3 then some (logDebug, "DEBUG: ", 7)
  else none

/-- The observable deliveries of Logger::log(level, s, args).  A blocked call
produces no events.  On a recognized level the message body is formatted by
vsnprintf into the LOG_BUFFER_SIZE - pti bytes that remain after the label
text, the composed buffer is printed to the stream when one is stored, and
then the callback is invoked when it is valid.  When no case of the switch
ran, pti keeps its initializer 0, so the buffer holds only the formatted
message and the stream write stays determinate; only a valid callback then
reads the uninitialized levelN, an undefined value modelled by none for the
whole call. -/
def Logger.logEvents (l : Logger) (level : Nat) (s : String) (args : List FmtArg) :
    Option (List LogEvent) :=
  if l.guardBlocks level then some [] else
  match labelSwitch level with
  | some (levelN, buf0, pti) =>
    let msg := vsnprintf (LOG_BUFFER_SIZE - pti) s args
    let line := buf0 ++ msg
    let streamEvs : List LogEvent :=
      match l._strm with
      | some sid => [LogEvent.streamWrite sid line]
      | none => []
    let cbEvs : List LogEvent :=
      match l._logEvent with
      | some cid => [LogEvent.callbackCall cid level levelN s msg]
      | none => []
    some (streamEvs ++ cbEvs)
  | none =>
    let msg := vsnprintf (LOG_BUFFER_SIZE - 0) s args
    match l._logEvent with
    | some _ => none
    | none =>
      match l._strm with
      | some sid => some [LogEvent.streamWrite sid msg]
      | none => some []

/-- Logger::log reads the configuration fields but never assigns them, so the
state component of the result is the input state. -/
def Logger.log (l : Logger) (level : Nat) (s : String) (args : List FmtArg) :
    Logger × Option (List LogEvent) :=
  (l, l.logEvents level s args)

/-- The error(s, ...) wrapper: forwards to log with Loglevel::err. -/
def Logger.error (l : Logger) (s : String) (args : List FmtArg) :
    Logger × Option (List LogEvent) :=
  l.log Loglevel.err s args

/-- The info(s, ...) wrapper: forwards to log with Loglevel::info. -/
def Logger.info (l : Logger) (s : String) (args : List FmtArg) :
    Logger × Option (List LogEvent) :=
  l.log Loglevel.info s args

/-- The debug(s, ...) wrapper: forwards to log with Loglevel::debug. -/
def Logger.debug (l : Logger) (s : String) (args : List FmtArg) :
    Logger × Option (List LogEvent) :=
  l.log Loglevel.debug s args

/-- True when some event of a call is a write to the text stream. -/
def streamDelivered (evs : List LogEvent) : Bool :=
  evs.any fun e => match e with
    | LogEvent.streamWrite _ _ => true
    | _ => false

/-- True when some event of a call is a callback invocation. -/
def handlerInvoked (evs : List LogEvent) : Bool :=
  evs.any fun e => match e with
    | LogEvent.callbackCall _ _ _ _ _ => true
    | _ => false

/-- A call blocked by the guard produces no events. -/
theorem logEvents_blocked (l : Logger) (L : Nat) (s : String) (args : List FmtArg)
    (h : l.guardBlocks L = true) : l.logEvents L s args = some [] := by
  simp [Logger.logEvents, h]

/-- A call that passes the guard on a recognized level produces the stream
write followed by the callback invocation, each conditional on its
destination being configured. -/
theorem logEvents_pass (l : Logger) (L : Nat) (levelN buf0 : String) (pti : Nat)
    (s : String) (args : List FmtArg)
    (h : l.guardBlocks L = false) (hsw : labelSwitch L = some (levelN, buf0, pti)) :
    l.logEvents L s args =
      some ((match l._strm with
             | some sid =>
               [LogEvent.streamWrite sid (buf0 ++ vsnprintf (LOG_BUFFER_SIZE - pti) s args)]
             | none => []) ++
            (match l._logEvent with
             | some cid =>
               [LogEvent.callbackCall cid L levelN s (vsnprintf (LOG_BUFFER_SIZE - pti) s args)]
             | none => [])) := by
  simp [Logger.logEvents, h, hsw]

/-- The guard passes exactly when the enabled byte is nonzero, the level is
at most the threshold, and at least one destination is configured. -/
theorem guardBlocks_false_iff (l : Logger) (L : Nat) :
    l.guardBlocks L = false ↔
      l._enabled ≠ 0 ∧ L ≤ l._logLevel ∧ (l._strm ≠ none ∨ l._logEvent ≠ none) := by
  simp [Logger.guardBlocks, Option.isNone_iff_eq_none, Option.isSome_iff_ne_none, not_lt]
  tauto

/-- The switch of Logger::log initializes its outputs exactly on the three
recognized level values. -/
theorem labelSwitch_isSome_iff (M : Nat) :
    (labelSwitch M).isSome = true ↔ (M = 1 ∨ M = 2 ∨ M = 3) := by
  unfold labelSwitch
  split_ifs <;> simp_all

/-- C1: for every logger state and every recognized level L, a call to log
delivers to each attached destination iff the enabled byte is nonzero and the
numeric value of L is at most the threshold; when the call is disabled,
filtered by the threshold, or neither destination is configured, it produces
no events and leaves the logger state unchanged. -/
theorem log_guard_characterization (l : Logger) (L : Nat)
    (hL : L = 1 ∨ L = 2 ∨ L = 3) (s : String) (args : List FmtArg) :
    (∃ evs, l.logEvents L s args = some evs ∧
      (streamDelivered evs = true ↔
        l._strm.isSome = true ∧ l._enabled ≠ 0 ∧ L ≤ l._logLevel) ∧
      (handlerInvoked evs = true ↔
        l._logEvent.isSome = true ∧ l._enabled ≠ 0 ∧ L ≤ l._logLevel) ∧
      ((l._enabled = 0 ∨ l._logLevel < L ∨ (l._strm = none ∧ l._logEvent = none)) →
        evs = [])) ∧
    (l.log L s args).1 = l := by
  refine ⟨?_, rfl⟩
  have hsw : ∃ t, labelSwitch L = some t := by
    rcases hL with rfl | rfl | rfl <;> exact ⟨_, rfl⟩
  obtain ⟨⟨levelN, buf0, pti⟩, hsw⟩ := hsw
  by_cases hg : l.guardBlocks L = true
  · refine ⟨[], logEvents_blocked l L s args hg, ?_, ?_, fun _ => rfl⟩ <;>
    · simp only [streamDelivered, handlerInvoked, List.any_nil, Bool.false_eq_true,
        false_iff, not_and]
      intro hdst hen hle
      simp [Logger.guardBlocks, Option.isNone_iff_eq_none, hen, not_lt.2 hle] at hg
      simp [hg.1, hg.2] at hdst
  · rw [Bool.not_eq_true] at hg
    obtain ⟨hen, hle, -⟩ := (guardBlocks_false_iff l L).1 hg
    refine ⟨_, logEvents_pass l L levelN buf0 pti s args hg hsw, ?_, ?_⟩ <;>
      cases hstrm : l._strm <;> cases hev : l._logEvent <;>
        simp_all [streamDelivered, handlerInvoked, guardBlocks_false_iff]

/-- C1 witness: with the default state plus a stream, an info-level call is
delivered to the stream. -/
theorem log_guard_characterization_witness :
    ∃ evs, (Logger.init.beginStream 0).logEvents 2 "x=%d" [FmtArg.int 5] = some evs ∧
      streamDelivered evs = true := by
  obtain ⟨⟨evs, heq, hs, -, -⟩, -⟩ :=
    log_guard_characterization (Logger.init.beginStream 0) 2
      (Or.inr (Or.inl rfl)) "x=%d" [FmtArg.int 5]
  exact ⟨evs, heq, hs.2 ⟨by decide, by decide, by decide⟩⟩

/-- C2: the severity labels are exactly ERROR, INFO and DEBUG, the buffer
text before the message is the label followed by a colon and a space, and the
line printed to the stream is exactly that label text followed by the
formatted message; with the default threshold, logging enabled, a stream
attached and no handler, debug with x=%d and 5 writes nothing while info with
the same arguments writes the line INFO: x=5. -/
theorem log_label_and_line (l : Logger) (L sid : Nat) (levelN buf0 : String) (pti : Nat)
    (s : String) (args : List FmtArg)
    (hstrm : l._strm = some sid)
    (hsw : labelSwitch L = some (levelN, buf0, pti))
    (hg : l.guardBlocks L = false) :
    labelSwitch 1 = some ("ERROR", "ERROR: ", 7) ∧
    labelSwitch 2 = some ("INFO", "INFO: ", 6) ∧
    labelSwitch 3 = some ("DEBUG", "DEBUG: ", 7) ∧
    buf0 = levelN ++ ": " ∧
    (∃ evs, l.logEvents L s args = some evs ∧
      LogEvent.streamWrite sid
        (levelN ++ ": " ++ vsnprintf (LOG_BUFFER_SIZE - pti) s args) ∈ evs) ∧
    Logger.logEvents (Logger.init.beginStream 0) 3 "x=%d" [FmtArg.int 5] = some [] ∧
    Logger.logEvents (Logger.init.beginStream 0) 2 "x=%d" [FmtArg.int 5] =
      some [LogEvent.streamWrite 0 "INFO: x=5"] := by
  have hbuf : buf0 = levelN ++ ": " := by
    unfold labelSwitch at hsw
    split_ifs at hsw <;>
      · rw [Option.some.injEq, Prod.mk.injEq, Prod.mk.injEq] at hsw
        obtain ⟨h1, h2, -⟩ := hsw
        rw [← h1, ← h2]
        rfl
  refine ⟨rfl, rfl, rfl, hbuf, ?_, by decide, by decide⟩
  refine ⟨_, logEvents_pass l L levelN buf0 pti s args hg hsw, ?_⟩
  rw [hstrm, hbuf, String.append_assoc]
  simp

/-- C2 witness: the universal line-shape part applied to the info scenario. -/
theorem log_label_and_line_witness :
    ∃ evs, (Logger.init.beginStream 0).logEvents 2 "x=%d" [FmtArg.int 5] = some evs ∧
      LogEvent.streamWrite 0
        ("INFO" ++ ": " ++ vsnprintf (LOG_BUFFER_SIZE - 6) "x=%d" [FmtArg.int 5]) ∈ evs :=
  (log_label_and_line (Logger.init.beginStream 0) 2 0 "INFO" "INFO: " 6 "x=%d"
    [FmtArg.int 5] rfl rfl (by decide)).2.2.2.2.1

/-- C3: whenever the callback is valid and a call passes the guard on a
recognized level, the callback receives exactly the raw numeric level, the
level-name string, the original format string and the formatted body without
the label text; with threshold debug, a handler attached and no stream, an
error call with the plain string boom invokes the handler with arguments
1, ERROR, boom, boom and writes nothing to a stream. -/
theorem log_handler_arguments (l : Logger) (L cid : Nat) (levelN buf0 : String) (pti : Nat)
    (s : String) (args : List FmtArg)
    (hev : l._logEvent = some cid)
    (hsw : labelSwitch L = some (levelN, buf0, pti))
    (hg : l.guardBlocks L = false) :
    (∃ evs, l.logEvents L s args = some evs ∧
      LogEvent.callbackCall cid L levelN s
        (vsnprintf (LOG_BUFFER_SIZE - pti) s args) ∈ evs) ∧
    ((Logger.init.beginCallback (some 0)).setLogLevel 3).logEvents 1 "boom" [] =
      some [LogEvent.callbackCall 0 1 "ERROR" "boom" "boom"] := by
  refine ⟨⟨_, logEvents_pass l L levelN buf0 pti s args hg hsw, ?_⟩, by decide⟩
  rw [hev]
  simp

/-- C3 witness: the universal part applied to the handler scenario. -/
theorem log_handler_arguments_witness :
    ∃ evs, ((Logger.init.beginCallback (some 0)).setLogLevel 3).logEvents 1 "boom" []
        = some evs ∧
      LogEvent.callbackCall 0 1 "ERROR" "boom"
        (vsnprintf (LOG_BUFFER_SIZE - 7) "boom" []) ∈ evs :=
  (log_handler_arguments ((Logger.init.beginCallback (some 0)).setLogLevel 3) 1 0
    "ERROR" "ERROR: " 7 "boom" [] rfl rfl (by decide)).1

/-- C4: for every call that passes the guard on a recognized level, the body
delivered to each destination is exactly the bounded formatting primitive
applied to the buffer capacity that remains after the label text, and it is
silently truncated to fit that capacity; the call returns no error. -/
theorem log_body_vsnprintf (l : Logger) (L : Nat) (levelN buf0 : String) (pti : Nat)
    (s : String) (args : List FmtArg)
    (hsw : labelSwitch L = some (levelN, buf0, pti))
    (hg : l.guardBlocks L = false) :
    ∃ evs, l.logEvents L s args = some evs ∧
      (∀ sid line, LogEvent.streamWrite sid line ∈ evs →
        line = buf0 ++ vsnprintf (LOG_BUFFER_SIZE - pti) s args) ∧
      (∀ cid lv nm fs msg, LogEvent.callbackCall cid lv nm fs msg ∈ evs →
        msg = vsnprintf (LOG_BUFFER_SIZE - pti) s args) ∧
      (vsnprintf (LOG_BUFFER_SIZE - pti) s args).length ≤ LOG_BUFFER_SIZE - pti - 1 := by
  refine ⟨_, logEvents_pass l L levelN buf0 pti s args hg hsw, ?_, ?_, ?_⟩
  · intro sid line hmem
    cases hstrm : l._strm <;> cases hev : l._logEvent <;> simp_all
  · intro cid lv nm fs msg hmem
    cases hstrm : l._strm <;> cases hev : l._logEvent <;> simp_all
  · show (((runFormat s.data args).take (LOG_BUFFER_SIZE - pti - 1)).asString).length ≤ _
    simp [String.length, List.asString]

/-- C4 witness: the body delivered for an info call equals the bounded
formatting of its arguments. -/
theorem log_body_vsnprintf_witness :
    ∃ evs, (Logger.init.beginStream 0).logEvents 2 "x=%d" [FmtArg.int 5] = some evs ∧
      (∀ sid line, LogEvent.streamWrite sid line ∈ evs →
        line = "INFO: " ++ vsnprintf (LOG_BUFFER_SIZE - 6) "x=%d" [FmtArg.int 5]) := by
  obtain ⟨evs, heq, hline, -, -⟩ :=
    log_body_vsnprintf (Logger.init.beginStream 0) 2 "INFO" "INFO: " 6 "x=%d"
      [FmtArg.int 5] rfl (by decide)
  exact ⟨evs, heq, hline⟩

/-- C5: when both the stream and the callback are configured and a call
passes the guard on a recognized level, the one call delivers to both
destinations, with the stream write strictly before the callback
invocation. -/
theorem log_both_destinations_order (l : Logger) (L sid cid : Nat)
    (levelN buf0 : String) (pti : Nat) (s : String) (args : List FmtArg)
    (hstrm : l._strm = some sid) (hev : l._logEvent = some cid)
    (hsw : labelSwitch L = some (levelN, buf0, pti)) (hg : l.guardBlocks L = false) :
    l.logEvents L s args =
      some [LogEvent.streamWrite sid (buf0 ++ vsnprintf (LOG_BUFFER_SIZE - pti) s args),
            LogEvent.callbackCall cid L levelN s
              (vsnprintf (LOG_BUFFER_SIZE - pti) s args)] := by
  rw [logEvents_pass l L levelN buf0 pti s args hg hsw, hstrm, hev]
  simp

/-- C5 witness: with both destinations on the default state, an error call
writes to the stream first and invokes the callback second. -/
theorem log_both_destinations_order_witness :
    (Logger.init.beginBoth 4 (some 9)).logEvents 1 "boom" [] =
      some [LogEvent.streamWrite 4 ("ERROR: " ++ vsnprintf (LOG_BUFFER_SIZE - 7) "boom" []),
            LogEvent.callbackCall 9 1 "ERROR" "boom"
              (vsnprintf (LOG_BUFFER_SIZE - 7) "boom" [])] :=
  log_both_destinations_order (Logger.init.beginBoth 4 (some 9)) 1 4 9 "ERROR" "ERROR: " 7
    "boom" [] rfl rfl rfl (by decide)

/-- C6: each begin overload overwrites the prior configuration with the last
write winning, reconfiguration always succeeds, and a log call made after the
reconfiguration delivers to the most recently supplied destinations. -/
theorem begin_last_write_wins (l : Logger) (s1 s2 : Nat) (e1 : Option Nat) (cid : Nat) :
    ((l.beginStream s1).beginStream s2)._strm = some s2 ∧
    ((l.beginStream s1).beginStream s2)._logEvent = l._logEvent ∧
    ((l.beginCallback e1).beginCallback (some cid))._logEvent = some cid ∧
    ((l.beginCallback e1).beginCallback (some cid))._strm = l._strm ∧
    ((l.beginBoth s1 e1).beginBoth s2 (some cid))._strm = some s2 ∧
    ((l.beginBoth s1 e1).beginBoth s2 (some cid))._logEvent = some cid ∧
    ∀ L levelN buf0 pti s args, labelSwitch L = some (levelN, buf0, pti) →
      l._enabled ≠ 0 → L ≤ l._logLevel →
      ((l.beginBoth s1 e1).beginBoth s2 (some cid)).logEvents L s args =
        some [LogEvent.streamWrite s2 (buf0 ++ vsnprintf (LOG_BUFFER_SIZE - pti) s args),
              LogEvent.callbackCall cid L levelN s
                (vsnprintf (LOG_BUFFER_SIZE - pti) s args)] := by
  refine ⟨rfl, rfl, rfl, rfl, rfl, rfl, ?_⟩
  intro L levelN buf0 pti s args hsw hen hle
  have hg : ((l.beginBoth s1 e1).beginBoth s2 (some cid)).guardBlocks L = false :=
    (guardBlocks_false_iff _ L).2 ⟨hen, hle, Or.inl (by simp [Logger.beginBoth])⟩
  rw [logEvents_pass _ L levelN buf0 pti s args hg hsw]
  simp [Logger.beginBoth]

/-- C6 witness: after two reconfigurations the second stream and callback
receive an error call. -/
theorem begin_last_write_wins_witness :
    ((Logger.init.beginBoth 1 (some 5)).beginBoth 2 (some 9)).logEvents 1 "boom" [] =
      some [LogEvent.streamWrite 2 ("ERROR: " ++ vsnprintf (LOG_BUFFER_SIZE - 7) "boom" []),
            LogEvent.callbackCall 9 1 "ERROR" "boom"
              (vsnprintf (LOG_BUFFER_SIZE - 7) "boom" [])] :=
  (begin_last_write_wins Logger.init 1 2 (some 5) 9).2.2.2.2.2.2
    1 "ERROR" "ERROR: " 7 "boom" [] rfl (by decide) (by decide)

/-- C7: a freshly constructed Logger has threshold info with numeric value 2,
is enabled with the nonzero byte 1, and has no stream and no callback, so a
log call at any level before any begin call delivers nothing. -/
theorem init_defaults :
    Logger.init.getLogLevel = Loglevel.info ∧
    Logger.init.getLogLevel = 2 ∧
    Logger.init.getEnabled = 1 ∧
    0 < Logger.init.getEnabled ∧
    Logger.init._strm = none ∧
    Logger.init._logEvent = none ∧
    ∀ L s args, Logger.init.logEvents L s args = some [] := by
  refine ⟨rfl, rfl, rfl, by decide, rfl, rfl, fun L s args => ?_⟩
  apply logEvents_blocked
  simp [Logger.guardBlocks, Logger.init]

/-- C8: each mutating operation changes only its own part of the state:
beginStream leaves the callback, level and enabled byte unchanged,
beginCallback leaves the stream, level and enabled byte unchanged, beginBoth
leaves the level and enabled byte unchanged, setLogLevel changes only the
threshold, setEnabled changes only the enabled byte, and the log, error, info
and debug calls change no configuration field at all. -/
theorem mutators_frame (l : Logger) (sid : Nat) (ev : Option Nat) (lv en L : Nat)
    (s : String) (args : List FmtArg) :
    (l.beginStream sid)._logLevel = l._logLevel ∧
    (l.beginStream sid)._enabled = l._enabled ∧
    (l.beginStream sid)._logEvent = l._logEvent ∧
    (l.beginCallback ev)._logLevel = l._logLevel ∧
    (l.beginCallback ev)._enabled = l._enabled ∧
    (l.beginCallback ev)._strm = l._strm ∧
    (l.beginBoth sid ev)._logLevel = l._logLevel ∧
    (l.beginBoth sid ev)._enabled = l._enabled ∧
    (l.setLogLevel lv)._logLevel = lv ∧
    (l.setLogLevel lv)._enabled = l._enabled ∧
    (l.setLogLevel lv)._strm = l._strm ∧
    (l.setLogLevel lv)._logEvent = l._logEvent ∧
    (l.setEnabled en)._enabled = en ∧
    (l.setEnabled en)._logLevel = l._logLevel ∧
    (l.setEnabled en)._strm = l._strm ∧
    (l.setEnabled en)._logEvent = l._logEvent ∧
    (l.log L s args).1 = l ∧
    (l.error s args).1 = l ∧
    (l.info s args).1 = l ∧
    (l.debug s args).1 = l :=
  ⟨rfl, rfl, rfl, rfl, rfl, rfl, rfl, rfl, rfl, rfl,
   rfl, rfl, rfl, rfl, rfl, rfl, rfl, rfl, rfl, rfl⟩

/-- C9 counterexample: the claim says the prefix index the call then uses is
never initialized, but pti is declared with the initializer 0, so a passing
call on the unrecognized level 4 with only a stream attached is fully
determinate: it prints the formatted message with no label text at all. -/
theorem log_unrecognized_level_counterexample :
    ((Logger.init.beginStream 0).setLogLevel 5).logEvents 4 "boom" [] =
      some [LogEvent.streamWrite 0 "boom"] := by
  decide

/-- C9 amended: a level byte outside the three recognized values that is at
most the threshold, with the enabled byte nonzero and a destination attached,
passes the guard yet matches no case of the switch.  The prefix index pti
keeps its initializer 0, so with only a stream configured the call
determinately prints the formatted message without any label; the level-name
pointer levelN alone is never initialized, and it is read, an undefined
value, exactly when the callback is valid.  The switch initializes levelN
for precisely the three recognized levels. -/
theorem log_unrecognized_level (l : Logger) (L : Nat) (s : String) (args : List FmtArg)
    (hrange : L < 256) (h1 : L ≠ 1) (h2 : L ≠ 2) (h3 : L ≠ 3)
    (hle : L ≤ l._logLevel) (hen : l._enabled ≠ 0)
    (hdst : l._strm ≠ none ∨ l._logEvent ≠ none) :
    l.guardBlocks L = false ∧
    labelSwitch L = none ∧
    (∀ cid, l._logEvent = some cid → l.logEvents L s args = none) ∧
    (∀ sid, l._strm = some sid → l._logEvent = none →
      l.logEvents L s args =
        some [LogEvent.streamWrite sid (vsnprintf (LOG_BUFFER_SIZE - 0) s args)]) ∧
    ∀ M, (labelSwitch M).isSome = true ↔ (M = 1 ∨ M = 2 ∨ M = 3) := by
  have hg : l.guardBlocks L = false := (guardBlocks_false_iff l L).2 ⟨hen, hle, hdst⟩
  have hsw : labelSwitch L = none := by simp [labelSwitch, h1, h2, h3]
  refine ⟨hg, hsw, ?_, ?_, labelSwitch_isSome_iff⟩
  · intro cid hev
    simp [Logger.logEvents, hg, hsw, hev]
  · intro sid hstrm hev
    simp [Logger.logEvents, hg, hsw, hstrm, hev]

/-- C9 witness: with the threshold raised to 5 and logging enabled, the
unrecognized level 4 yields the undefined callback read when a callback is
valid, and the determinate unprefixed stream line when only a stream is
attached. -/
theorem log_unrecognized_level_witness :
    ((Logger.init.beginCallback (some 0)).setLogLevel 5).logEvents 4 "boom" [] = none ∧
    ((Logger.init.beginStream 0).setLogLevel 5).logEvents 4 "x=%d" [FmtArg.int 5] =
      some [LogEvent.streamWrite 0
        (vsnprintf (LOG_BUFFER_SIZE - 0) "x=%d" [FmtArg.int 5])] :=
  ⟨(log_unrecognized_level ((Logger.init.beginCallback (some 0)).setLogLevel 5) 4
      "boom" [] (by decide) (by decide) (by decide) (by decide) (by decide) (by decide)
      (Or.inr (by decide))).2.2.1 0 rfl,
   (log_unrecognized_level ((Logger.init.beginStream 0).setLogLevel 5) 4
      "x=%d" [FmtArg.int 5] (by decide) (by decide) (by decide) (by decide) (by decide)
      (by decide) (Or.inl (by decide))).2.2.2.1 0 rfl rfl⟩

/-- C10: setEnabled stores its byte argument verbatim and getEnabled returns
exactly that stored byte without normalizing it to 0 or 1; the guard treats
any nonzero stored byte as enabled, so after setEnabled with a nonzero byte a
call that survives the threshold with a stream attached still delivers. -/
theorem setEnabled_verbatim (l : Logger) (n : Nat) (hn : n < 256) (h0 : n ≠ 0) :
    (l.setEnabled n).getEnabled = n ∧
    (l.setEnabled n)._enabled ≠ 0 ∧
    ∀ sid L levelN buf0 pti s args, labelSwitch L = some (levelN, buf0, pti) →
      L ≤ l._logLevel →
      ∃ evs, ((l.setEnabled n).beginStream sid).logEvents L s args = some evs ∧
        streamDelivered evs = true := by
  refine ⟨rfl, h0, ?_⟩
  intro sid L levelN buf0 pti s args hsw hle
  have hg : ((l.setEnabled n).beginStream sid).guardBlocks L = false :=
    (guardBlocks_false_iff _ L).2 ⟨h0, hle, Or.inl (by simp [Logger.beginStream])⟩
  refine ⟨_, logEvents_pass _ L levelN buf0 pti s args hg hsw, ?_⟩
  simp [Logger.beginStream, Logger.setEnabled, streamDelivered]

/-- C10 witness: after setEnabled with the byte 7, getEnabled returns 7 and an
info call with a stream attached is delivered. -/
theorem setEnabled_verbatim_witness :
    (Logger.init.setEnabled 7).getEnabled = 7 ∧
    ∃ evs, ((Logger.init.setEnabled 7).beginStream 0).logEvents 2 "x=%d" [FmtArg.int 5]
        = some evs ∧ streamDelivered evs = true := by
  obtain ⟨h1, -, h3⟩ := setEnabled_verbatim Logger.init 7 (by decide) (by decide)
  exact ⟨h1, h3 0 2 "INFO" "INFO: " 6 "x=%d" [FmtArg.int 5] rfl (by decide)⟩
